import Mathlib

/-!
Verification of the plumcast broadcast library (Rust) against its
natural-language specification.

The definitions below are a shallow embedding of the relevant parts of the
source tree:

* `src/codec/net.rs`    — `SocketAddrEncoder` / `SocketAddrDecoder`
* `src/codec/node.rs`   — `LocalNodeIdEncoder/Decoder`, `NodeIdEncoder/Decoder`
* `src/codec/plumtree.rs` — `MessageIdEncoder/Decoder`, `IhaveMessageEncoder/Decoder`,
  `PruneMessageEncoder/Decoder`
* `src/rpc/hyparview.rs`, `src/rpc/plumtree.rs` — cast option settings and
  inbound cast handlers
* `src/service.rs`      — `Service::handle_command`,
  `ServiceHandle::get_local_node_or_disconnect`
* `src/node.rs`         — `Node::broadcast`, `Node::forget_message`,
  `impl Drop for Node`, `gen_interval`, `Node::handle_tick`

Wire formats use big-endian network order (`bytecodec` fixnum encoders);
bytes are modelled as natural numbers below 256, byte strings as `List Nat`.
Machine counters (`u64`) are modelled as `Nat`, with the two places where
64-bit overflow/underflow is relevant (the metric subtraction in
`Drop for Node`) modelled explicitly with checked and wrapping variants.
-/

/-- Big-endian byte string of width `w` for the value `v % 256 ^ w`
(the output of `bytecodec`'s `U16beEncoder`/`U32beEncoder`/`U64beEncoder`
and of `BytesEncoder`/`CopyableBytesDecoder` viewed as a big-endian number). -/
def beBytes : Nat → Nat → List Nat
  | 0, _ => []
  | n + 1, v => v / 256 ^ n % 256 :: beBytes n v

/-- Error kinds of the crate (`ErrorKind` in `src/error.rs` /
`bytecodec::ErrorKind`): only the kinds the claims mention are listed. -/
inductive PcErrorKind
  | InvalidInput
  | UnexpectedEos
  | InconsistentState
  | Other
  deriving DecidableEq

/-- Big-endian fixed-width integer decoder (the `U16beDecoder` /
`U64beDecoder` family): reads `w` bytes into the accumulator, failing if the
input is exhausted. Returns the decoded value and the remaining bytes. -/
def readBe : Nat → Nat → List Nat → Except PcErrorKind (Nat × List Nat)
  | 0, acc, bs => .ok (acc, bs)
  | _ + 1, _, [] => .error .UnexpectedEos
  | n + 1, acc, b :: bs => readBe n (acc * 256 + b) bs

theorem readBe_beBytes (w : Nat) : ∀ (acc v : Nat) (rest : List Nat),
    readBe w acc (beBytes w v ++ rest) = .ok (acc * 256 ^ w + v % 256 ^ w, rest) := by
  induction w with
  | zero =>
    intro acc v rest
    simp [beBytes, readBe, Nat.mod_one]
  | succ n ih =>
    intro acc v rest
    simp only [beBytes, List.cons_append, readBe, List.append_eq]
    rw [ih]
    have h : v % 256 ^ (n + 1) = v % 256 ^ n + 256 ^ n * (v / 256 ^ n % 256) := by
      rw [pow_succ, Nat.mod_mul]
    rw [h]
    ring_nf

theorem readBe_beBytes_nil (w acc v : Nat) :
    readBe w acc (beBytes w v) = .ok (acc * 256 ^ w + v % 256 ^ w, []) := by
  simpa using readBe_beBytes w acc v []

/-- Sequencing of partial decoders, the shape produced by the
`bytecodec_try_decode!` / `track!` chains in the source: an error of the
first decoder is propagated, otherwise the second runs on the rest. -/
def andThenE {ε α β : Type} : Except ε (α × List Nat) →
    (α → List Nat → Except ε (β × List Nat)) → Except ε (β × List Nat)
  | .error e, _ => .error e
  | .ok (x, r), f => f x r

theorem andThenE_ok {ε α β : Type} (x : α) (r : List Nat)
    (f : α → List Nat → Except ε (β × List Nat)) :
    andThenE (.ok (x, r)) f = f x r := rfl

theorem andThenE_error {ε α β : Type} (e : ε)
    (f : α → List Nat → Except ε (β × List Nat)) :
    andThenE (.error e) f = (.error e : Except ε (β × List Nat)) := rfl

/-- `std::net::SocketAddrV4` as used by the codec: a 32-bit IP
(the four octets read in big-endian order) and a 16-bit port. -/
structure SocketAddrV4 where
  ip : Nat
  port : Nat
  deriving DecidableEq

/-- `std::net::SocketAddrV6` as used by the codec: a 128-bit IP
(the sixteen octets read in big-endian order), a 16-bit port,
a 32-bit flowinfo and a 32-bit scope_id. -/
structure SocketAddrV6 where
  ip : Nat
  port : Nat
  flowinfo : Nat
  scope_id : Nat
  deriving DecidableEq

/-- `std::net::SocketAddr`. -/
inductive SocketAddress
  | V4 (addr : SocketAddrV4)
  | V6 (addr : SocketAddrV6)
  deriving DecidableEq

/-- `SocketAddrEncoder` (src/codec/net.rs:128-255): one version byte
(4 or 6), then for v4 the 4 IP octets and the 2 port bytes, for v6 the
16 IP octets, 2 port bytes, 4 flowinfo bytes and 4 scope_id bytes. -/
def encodeSocketAddr : SocketAddress → List Nat
  | .V4 a => 4 :: (beBytes 4 a.ip ++ beBytes 2 a.port)
  | .V6 a =>
    6 :: (beBytes 16 a.ip ++ beBytes 2 a.port ++ beBytes 4 a.flowinfo ++ beBytes 4 a.scope_id)

/-- `SocketAddrDecoder` (src/codec/net.rs:9-54): peeks the version byte,
dispatches to the v4 or v6 sub-decoder, and fails with `InvalidInput` on any
other version value ("Unknown IP version"). Returns the decoded address and
the unconsumed suffix of the input. -/
def decodeSocketAddr (bs : List Nat) : Except PcErrorKind (SocketAddress × List Nat) :=
  match bs with
  | [] => .error .UnexpectedEos
  | v :: rest =>
    if v = 4 then
      andThenE (readBe 4 0 rest) fun ip r1 =>
      andThenE (readBe 2 0 r1) fun port r2 =>
      .ok (.V4 ⟨ip, port⟩, r2)
    else if v = 6 then
      andThenE (readBe 16 0 rest) fun ip r1 =>
      andThenE (readBe 2 0 r1) fun port r2 =>
      andThenE (readBe 4 0 r2) fun flowinfo r3 =>
      andThenE (readBe 4 0 r3) fun scope r4 =>
      .ok (.V6 ⟨ip, port, flowinfo, scope⟩, r4)
    else .error .InvalidInput

theorem decodeSocketAddr_append_v4 (a : SocketAddrV4) (rest : List Nat)
    (h1 : a.ip < 2 ^ 32) (h2 : a.port < 2 ^ 16) :
    decodeSocketAddr (encodeSocketAddr (.V4 a) ++ rest) = .ok (.V4 a, rest) := by
  have e4 : (256 : Nat) ^ 4 = 2 ^ 32 := by norm_num
  have e2 : (256 : Nat) ^ 2 = 2 ^ 16 := by norm_num
  simp only [encodeSocketAddr, List.cons_append, List.append_assoc, decodeSocketAddr,
    if_pos rfl]
  rw [readBe_beBytes, andThenE_ok]
  rw [readBe_beBytes, andThenE_ok]
  simp only [Nat.zero_mul, Nat.zero_add]
  rw [e4, e2, Nat.mod_eq_of_lt h1, Nat.mod_eq_of_lt h2]
  simp

theorem decodeSocketAddr_append_v6 (a : SocketAddrV6) (rest : List Nat)
    (h1 : a.ip < 2 ^ 128) (h2 : a.port < 2 ^ 16) (h3 : a.flowinfo < 2 ^ 32)
    (h4 : a.scope_id < 2 ^ 32) :
    decodeSocketAddr (encodeSocketAddr (.V6 a) ++ rest) = .ok (.V6 a, rest) := by
  have e16 : (256 : Nat) ^ 16 = 2 ^ 128 := by norm_num
  have e2 : (256 : Nat) ^ 2 = 2 ^ 16 := by norm_num
  have e4 : (256 : Nat) ^ 4 = 2 ^ 32 := by norm_num
  simp only [encodeSocketAddr, List.cons_append, List.append_assoc, decodeSocketAddr,
    if_neg (by norm_num : (6 : Nat) ≠ 4), if_pos rfl]
  rw [readBe_beBytes, andThenE_ok]
  rw [readBe_beBytes, andThenE_ok]
  rw [readBe_beBytes, andThenE_ok]
  rw [readBe_beBytes, andThenE_ok]
  simp only [Nat.zero_mul, Nat.zero_add]
  rw [e16, e2, e4, Nat.mod_eq_of_lt h1, Nat.mod_eq_of_lt h2, Nat.mod_eq_of_lt h3,
    Nat.mod_eq_of_lt h4]
  simp

/-- C1: for every well-formed `SocketAddr` (IPv4 or IPv6), decoding the
encoder's output yields the original address with nothing left over, and any
input whose first (version) byte is neither 4 nor 6 makes the decoder fail
with an `InvalidInput` error. -/
theorem socket_addr_roundtrip_and_unknown_version :
    (∀ (a : SocketAddrV4), a.ip < 2 ^ 32 → a.port < 2 ^ 16 →
      decodeSocketAddr (encodeSocketAddr (.V4 a)) = .ok (.V4 a, [])) ∧
    (∀ (a : SocketAddrV6), a.ip < 2 ^ 128 → a.port < 2 ^ 16 → a.flowinfo < 2 ^ 32 →
      a.scope_id < 2 ^ 32 →
      decodeSocketAddr (encodeSocketAddr (.V6 a)) = .ok (.V6 a, [])) ∧
    (∀ (v : Nat) (rest : List Nat), v ≠ 4 → v ≠ 6 →
      decodeSocketAddr (v :: rest) = .error .InvalidInput) := by
  refine ⟨?_, ?_, ?_⟩
  · intro a h1 h2
    simpa using decodeSocketAddr_append_v4 a [] h1 h2
  · intro a h1 h2 h3 h4
    simpa using decodeSocketAddr_append_v6 a [] h1 h2 h3 h4
  · intro v rest hv4 hv6
    simp [decodeSocketAddr, hv4, hv6]

/-- Witness for C1: the concrete roundtrips for `127.0.0.1:9000` and
`[2001:db8::1]:443` (flowinfo 0, scope 2), and the `InvalidInput` failure on
version byte 5. -/
theorem socket_addr_roundtrip_and_unknown_version_witness :
    decodeSocketAddr (encodeSocketAddr (.V4 ⟨0x7F000001, 9000⟩)) =
      .ok (.V4 ⟨0x7F000001, 9000⟩, []) ∧
    decodeSocketAddr (encodeSocketAddr (.V6 ⟨0x20010DB8000000000000000000000001, 443, 0, 2⟩)) =
      .ok (.V6 ⟨0x20010DB8000000000000000000000001, 443, 0, 2⟩, []) ∧
    decodeSocketAddr (5 :: [1, 2, 3]) = .error .InvalidInput := by
  refine ⟨?_, ?_, ?_⟩
  · exact socket_addr_roundtrip_and_unknown_version.1 ⟨0x7F000001, 9000⟩
      (by norm_num) (by norm_num)
  · exact socket_addr_roundtrip_and_unknown_version.2.1
      ⟨0x20010DB8000000000000000000000001, 443, 0, 2⟩
      (by norm_num) (by norm_num) (by norm_num) (by norm_num)
  · exact socket_addr_roundtrip_and_unknown_version.2.2 5 [1, 2, 3]
      (by norm_num) (by norm_num)

/-- `NodeId` (src/node_id.rs): the RPC server socket address together with
the 64-bit `LocalNodeId` (modelled as `Nat`). -/
structure NodeId where
  address : SocketAddress
  local_id : Nat
  deriving DecidableEq

/-- `MessageId` (src/message.rs): origin `NodeId` plus a 64-bit sequence
number assigned by the origin. -/
structure MessageId where
  node : NodeId
  seqno : Nat
  deriving DecidableEq

/-- Well-formedness of an address: every field fits its wire width. -/
def SocketAddress.wf : SocketAddress → Prop
  | .V4 a => a.ip < 2 ^ 32 ∧ a.port < 2 ^ 16
  | .V6 a => a.ip < 2 ^ 128 ∧ a.port < 2 ^ 16 ∧ a.flowinfo < 2 ^ 32 ∧ a.scope_id < 2 ^ 32

instance (a : SocketAddress) : Decidable a.wf :=
  match a with
  | .V4 x => inferInstanceAs (Decidable (x.ip < 2 ^ 32 ∧ x.port < 2 ^ 16))
  | .V6 x => inferInstanceAs
      (Decidable (x.ip < 2 ^ 128 ∧ x.port < 2 ^ 16 ∧ x.flowinfo < 2 ^ 32 ∧ x.scope_id < 2 ^ 32))

/-- Well-formedness of a `NodeId`: address well-formed, local id is 64-bit. -/
def NodeId.wf (n : NodeId) : Prop := n.address.wf ∧ n.local_id < 2 ^ 64

instance (n : NodeId) : Decidable n.wf :=
  inferInstanceAs (Decidable (n.address.wf ∧ n.local_id < 2 ^ 64))

/-- Well-formedness of a `MessageId`: node well-formed, seqno is 64-bit. -/
def MessageId.wf (m : MessageId) : Prop := m.node.wf ∧ m.seqno < 2 ^ 64

instance (m : MessageId) : Decidable m.wf :=
  inferInstanceAs (Decidable (m.node.wf ∧ m.seqno < 2 ^ 64))

theorem decodeSocketAddr_append (a : SocketAddress) (rest : List Nat) (h : a.wf) :
    decodeSocketAddr (encodeSocketAddr a ++ rest) = .ok (a, rest) := by
  cases a with
  | V4 x => exact decodeSocketAddr_append_v4 x rest h.1 h.2
  | V6 x => exact decodeSocketAddr_append_v6 x rest h.1 h.2.1 h.2.2.1 h.2.2.2

/-- `LocalNodeIdEncoder` (src/codec/node.rs:61-86): the 8-byte big-endian
value of the id. -/
def encodeLocalNodeId (id : Nat) : List Nat := beBytes 8 id

/-- `NodeIdEncoder` (src/codec/node.rs:88-121): the socket address followed
by the 8-byte local id. -/
def encodeNodeId (n : NodeId) : List Nat :=
  encodeSocketAddr n.address ++ encodeLocalNodeId n.local_id

/-- `NodeIdDecoder` (src/codec/node.rs:29-59). -/
def decodeNodeId (bs : List Nat) : Except PcErrorKind (NodeId × List Nat) :=
  andThenE (decodeSocketAddr bs) fun addr r1 =>
  andThenE (readBe 8 0 r1) fun lid r2 =>
  .ok (⟨addr, lid⟩, r2)

/-- `MessageIdEncoder` (src/codec/plumtree.rs:335-370): node then the
8-byte sequence number. -/
def encodeMessageId (m : MessageId) : List Nat :=
  encodeNodeId m.node ++ beBytes 8 m.seqno

/-- `MessageIdDecoder` (src/codec/plumtree.rs:133-163). -/
def decodeMessageId (bs : List Nat) : Except PcErrorKind (MessageId × List Nat) :=
  andThenE (decodeNodeId bs) fun node r1 =>
  andThenE (readBe 8 0 r1) fun seqno r2 =>
  .ok (⟨node, seqno⟩, r2)

theorem decodeNodeId_append (n : NodeId) (rest : List Nat) (h : n.wf) :
    decodeNodeId (encodeNodeId n ++ rest) = .ok (n, rest) := by
  simp only [decodeNodeId, encodeNodeId, encodeLocalNodeId, List.append_assoc]
  rw [decodeSocketAddr_append n.address _ h.1, andThenE_ok]
  rw [readBe_beBytes, andThenE_ok]
  simp only [Nat.zero_mul, Nat.zero_add]
  rw [show (256 : Nat) ^ 8 = 2 ^ 64 from by norm_num, Nat.mod_eq_of_lt h.2]

theorem decodeMessageId_append (m : MessageId) (rest : List Nat) (h : m.wf) :
    decodeMessageId (encodeMessageId m ++ rest) = .ok (m, rest) := by
  simp only [decodeMessageId, encodeMessageId, List.append_assoc]
  rw [decodeNodeId_append m.node _ h.1, andThenE_ok]
  rw [readBe_beBytes, andThenE_ok]
  simp only [Nat.zero_mul, Nat.zero_add]
  rw [show (256 : Nat) ^ 8 = 2 ^ 64 from by norm_num, Nat.mod_eq_of_lt h.2]

/-- `IhaveMessage` of the tree protocol, with exactly the fields the codec
in src/codec/plumtree.rs reads and writes. -/
structure IhaveMessage where
  sender : NodeId
  round : Nat
  message_id : MessageId
  realtime : Bool
  deriving DecidableEq

/-- Well-formedness of an IHave frame's fields. -/
def IhaveMessage.wf (m : IhaveMessage) : Prop :=
  m.sender.wf ∧ m.round < 2 ^ 16 ∧ m.message_id.wf

instance (m : IhaveMessage) : Decidable m.wf :=
  inferInstanceAs (Decidable (m.sender.wf ∧ m.round < 2 ^ 16 ∧ m.message_id.wf))

/-- `IhaveMessageEncoder` (src/codec/plumtree.rs:473-532): `start_encoding`
writes destination, sender, round, message_id, realtime — in that order. -/
def encodeIhaveMessage (dest : Nat) (m : IhaveMessage) : List Nat :=
  encodeLocalNodeId dest ++ encodeNodeId m.sender ++ beBytes 2 m.round ++
    encodeMessageId m.message_id ++ [if m.realtime then 1 else 0]

/-- `IhaveMessageDecoder` (src/codec/plumtree.rs:409-471): reads
destination, sender, round, message_id, realtime, and turns the realtime
byte into a boolean via `realtime != 0`. -/
def decodeIhaveMessage (bs : List Nat) :
    Except PcErrorKind ((Nat × IhaveMessage) × List Nat) :=
  andThenE (readBe 8 0 bs) fun dest r1 =>
  andThenE (decodeNodeId r1) fun sender r2 =>
  andThenE (readBe 2 0 r2) fun round r3 =>
  andThenE (decodeMessageId r3) fun mid r4 =>
  andThenE (readBe 1 0 r4) fun rt r5 =>
  .ok ((dest, ⟨sender, round, mid, rt != 0⟩), r5)

/-- The IHave layout in the order the claim words it (MessageId before the
round and the realtime flag). Stated from the specification, for comparison
with `encodeIhaveMessage`, which is modelled from the source. -/
def encodeIhaveMessageClaim (dest : Nat) (m : IhaveMessage) : List Nat :=
  encodeLocalNodeId dest ++ encodeNodeId m.sender ++ encodeMessageId m.message_id ++
    beBytes 2 m.round ++ [if m.realtime then 1 else 0]

/-- `PruneMessage` of the tree protocol: the codec in src/codec/plumtree.rs
reads and writes only the sender (`PruneMessage { sender }`). -/
structure PruneMessage where
  sender : NodeId
  deriving DecidableEq

/-- `PruneMessageEncoder` (src/codec/plumtree.rs:799-842): `start_encoding`
writes only the destination and the sender. -/
def encodePruneMessage (dest : Nat) (m : PruneMessage) : List Nat :=
  encodeLocalNodeId dest ++ encodeNodeId m.sender

/-- `PruneMessageDecoder` (src/codec/plumtree.rs:755-797): reads only the
destination and the sender. -/
def decodePruneMessage (bs : List Nat) :
    Except PcErrorKind ((Nat × PruneMessage) × List Nat) :=
  andThenE (readBe 8 0 bs) fun dest r1 =>
  andThenE (decodeNodeId r1) fun sender r2 =>
  .ok ((dest, ⟨sender⟩), r2)

/-- The Prune layout in the order the claim words it (destination, sender,
then a 16-bit round). Stated from the specification, for comparison with
`encodePruneMessage`, which is modelled from the source. -/
def encodePruneMessageClaim (dest : Nat) (sender : NodeId) (round : Nat) : List Nat :=
  encodeLocalNodeId dest ++ encodeNodeId sender ++ beBytes 2 round

deriving instance DecidableEq for Except

/-- Concrete node identifier `127.0.0.1:9000` with local id 10, used by the
concrete wire examples below. -/
def sampleNodeId : NodeId := ⟨.V4 ⟨0x7F000001, 9000⟩, 10⟩

/-- Concrete IHave frame contents used by the wire examples. -/
def sampleIhave : IhaveMessage := ⟨sampleNodeId, 3, ⟨sampleNodeId, 42⟩, true⟩

/-- C5 counterexample: for a concrete IHave frame the bytes produced by the
source encoder differ from the layout the claim describes (MessageId before
the round): the source writes the 16-bit round immediately after the sender
and the MessageId only after it. -/
theorem ihave_claimed_field_order_false :
    encodeIhaveMessage 1 sampleIhave ≠ encodeIhaveMessageClaim 1 sampleIhave := by
  decide

/-- C5 (amended): after the destination `LocalNodeId` and the sender
`NodeId`, the encoded IHave frame carries first the 16-bit round, then the
`MessageId`, then the one-byte realtime flag, in that order; and the decoder
reads the fields back in that same order (roundtrip, with arbitrary trailing
bytes left unconsumed). -/
theorem ihave_wire_format :
    (∀ (dest : Nat) (m : IhaveMessage),
      encodeIhaveMessage dest m =
        encodeLocalNodeId dest ++ encodeNodeId m.sender ++ beBytes 2 m.round ++
          encodeMessageId m.message_id ++ [if m.realtime then 1 else 0]) ∧
    (∀ (dest : Nat) (m : IhaveMessage) (rest : List Nat), dest < 2 ^ 64 → m.wf →
      decodeIhaveMessage (encodeIhaveMessage dest m ++ rest) = .ok ((dest, m), rest)) := by
  refine ⟨fun dest m => rfl, fun dest m rest hd hm => ?_⟩
  obtain ⟨sender, round, mid, rt⟩ := m
  obtain ⟨hs, hr, hmid⟩ := hm
  simp only [decodeIhaveMessage, encodeIhaveMessage, encodeLocalNodeId, List.append_assoc,
    List.singleton_append]
  rw [readBe_beBytes, andThenE_ok]
  rw [decodeNodeId_append sender _ hs, andThenE_ok]
  rw [readBe_beBytes, andThenE_ok]
  rw [decodeMessageId_append mid _ hmid, andThenE_ok]
  simp only [readBe, andThenE_ok, Nat.zero_mul, Nat.zero_add]
  rw [show (256 : Nat) ^ 8 = 2 ^ 64 from by norm_num,
    show (256 : Nat) ^ 2 = 2 ^ 16 from by norm_num,
    Nat.mod_eq_of_lt hd, Nat.mod_eq_of_lt hr]
  cases rt <;> simp

/-- Witness for the amended C5: the concrete roundtrip of an IHave frame
with two trailing bytes. -/
theorem ihave_wire_format_witness :
    decodeIhaveMessage (encodeIhaveMessage 1 sampleIhave ++ [7, 9]) =
      .ok ((1, sampleIhave), [7, 9]) :=
  ihave_wire_format.2 1 sampleIhave [7, 9] (by norm_num) (by decide)

/-- C4 counterexample: the source Prune decoder run on bytes laid out as the
claim describes (destination, sender, 16-bit round 258) succeeds after the
sender and leaves the two round bytes `[1, 2]` unconsumed, and the source
encoder's output for the same destination and sender differs from the
claimed layout: the Prune frame has no round field. -/
theorem prune_claimed_round_field_false :
    decodePruneMessage (encodePruneMessageClaim 1 sampleNodeId 258) =
      .ok ((1, ⟨sampleNodeId⟩), [1, 2]) ∧
    encodePruneMessage 1 ⟨sampleNodeId⟩ ≠ encodePruneMessageClaim 1 sampleNodeId 258 := by
  decide

/-- C4 (amended): the encoded Prune frame consists of the destination
`LocalNodeId` and the sender `NodeId` only — there is no round field — and
the decoder reads back exactly those two fields (roundtrip, with arbitrary
trailing bytes left unconsumed). -/
theorem prune_wire_format :
    (∀ (dest : Nat) (m : PruneMessage),
      encodePruneMessage dest m = encodeLocalNodeId dest ++ encodeNodeId m.sender) ∧
    (∀ (dest : Nat) (m : PruneMessage) (rest : List Nat), dest < 2 ^ 64 → m.sender.wf →
      decodePruneMessage (encodePruneMessage dest m ++ rest) = .ok ((dest, m), rest)) := by
  refine ⟨fun dest m => rfl, fun dest m rest hd hs => ?_⟩
  obtain ⟨sender⟩ := m
  simp only [decodePruneMessage, encodePruneMessage, encodeLocalNodeId, List.append_assoc]
  rw [readBe_beBytes, andThenE_ok]
  rw [decodeNodeId_append sender _ hs, andThenE_ok]
  simp only [Nat.zero_mul, Nat.zero_add]
  rw [show (256 : Nat) ^ 8 = 2 ^ 64 from by norm_num, Nat.mod_eq_of_lt hd]

/-- Witness for the amended C4: the concrete roundtrip of a Prune frame with
one trailing byte. -/
theorem prune_wire_format_witness :
    decodePruneMessage (encodePruneMessage 1 ⟨sampleNodeId⟩ ++ [9]) =
      .ok ((1, ⟨sampleNodeId⟩), [9]) :=
  prune_wire_format.2 1 ⟨sampleNodeId⟩ [9] (by norm_num) (by decide)

/-- The per-node monotonic counters (src/metrics.rs `NodeMetrics`) at the
granularity of their `u64` read-outs (`value() as u64`). Only the counters
the claims mention are carried. -/
structure NodeMetrics where
  broadcasted_messages : Nat
  forgot_messages : Nat
  delivered_messages : Nat
  forget_unknown_message_errors : Nat
  deriving DecidableEq

/-- The all-zero counters a fresh node starts from. -/
def zeroNodeMetrics : NodeMetrics := ⟨0, 0, 0, 0⟩

/-- `NodeMetrics::add` (src/metrics.rs:194-213), restricted to the carried
counters: each counter of `b` is added onto the corresponding counter of
`a` (the deregistration merge into the removed-nodes aggregate). -/
def NodeMetrics.add (a b : NodeMetrics) : NodeMetrics :=
  ⟨a.broadcasted_messages + b.broadcasted_messages,
   a.forgot_messages + b.forgot_messages,
   a.delivered_messages + b.delivered_messages,
   a.forget_unknown_message_errors + b.forget_unknown_message_errors⟩

/-- `NodeHandle` (src/node.rs:435-458) as the registry sees it: the local
id and the per-node metrics (consulted by the deregistration merge). The
mailbox sender is not observable at this level. -/
structure NodeHandle where
  local_id : Nat
  metrics : NodeMetrics
  deriving DecidableEq

/-- Lookup in the registry table (`HashMap::get` keyed by `LocalNodeId`,
modelled as an association list). -/
def lookupNode : List (Nat × NodeHandle) → Nat → Option NodeHandle
  | [], _ => none
  | (k, h) :: t, id => if k = id then some h else lookupNode t id

/-- Removal from the registry table (`HashMap::remove`). -/
def removeNode : List (Nat × NodeHandle) → Nat → List (Nat × NodeHandle)
  | [], _ => []
  | (k, h) :: t, id => if k = id then t else (k, h) :: removeNode t id

/-- The service-level state the claims touch (src/service.rs): the bound
RPC server address, the copy-on-write registry table `local_nodes`, the
service counters, and the removed-nodes metrics aggregate. -/
structure ServiceState where
  server_addr : SocketAddress
  local_nodes : List (Nat × NodeHandle)
  registered_nodes : Nat
  deregistered_nodes : Nat
  destination_unknown_messages : Nat
  removed_nodes_metrics : NodeMetrics
  deriving DecidableEq

/-- The two registry mutation commands (src/service.rs:367-371). -/
inductive Command
  | Register (node : NodeHandle)
  | Deregister (id : Nat)
  deriving DecidableEq

/-- `Service::handle_command` (src/service.rs:166-203). The `track_assert!`
guards run before any mutation, so a failing command returns
`InconsistentState` with the state — in particular the node table —
untouched; a successful `Register` bumps `registered_nodes` and inserts,
a successful `Deregister` bumps `deregistered_nodes`, removes the entry and
merges its metrics into the removed-nodes aggregate. -/
def handleCommand (s : ServiceState) : Command → Except PcErrorKind Unit × ServiceState
  | .Register node =>
    if (lookupNode s.local_nodes node.local_id).isSome then
      (.error .InconsistentState, s)
    else
      (.ok (),
       { s with registered_nodes := s.registered_nodes + 1,
                local_nodes := (node.local_id, node) :: s.local_nodes })
  | .Deregister id =>
    if (lookupNode s.local_nodes id).isSome then
      (.ok (),
       { s with deregistered_nodes := s.deregistered_nodes + 1,
                local_nodes := removeNode s.local_nodes id,
                removed_nodes_metrics :=
                  match lookupNode s.local_nodes id with
                  | some n => s.removed_nodes_metrics.add n.metrics
                  | none => s.removed_nodes_metrics })
    else (.error .InconsistentState, s)

/-- The command-draining loop of `Service::poll` (src/service.rs:222-224):
commands are handled in order; the first error is returned from the poll,
terminating the service future (fatal). -/
def pollCommands (s : ServiceState) : List Command → Except PcErrorKind ServiceState
  | [] => .ok s
  | c :: cs =>
    match handleCommand s c with
    | (.ok _, s2) => pollCommands s2 cs
    | (.error e, _) => .error e

/-- C7: registering an id already present in the table and deregistering an
absent id both make `handle_command` return an `InconsistentState` error
with the service state — in particular the node table — unchanged, and such
an error terminates the service poll (fatal for the `Service`). -/
theorem handle_command_inconsistent_state :
    (∀ (s : ServiceState) (node : NodeHandle),
      (lookupNode s.local_nodes node.local_id).isSome →
      handleCommand s (.Register node) = (.error .InconsistentState, s)) ∧
    (∀ (s : ServiceState) (id : Nat),
      (lookupNode s.local_nodes id).isNone →
      handleCommand s (.Deregister id) = (.error .InconsistentState, s)) ∧
    (∀ (s : ServiceState) (node : NodeHandle) (cs : List Command),
      (lookupNode s.local_nodes node.local_id).isSome →
      pollCommands s (.Register node :: cs) = .error .InconsistentState) ∧
    (∀ (s : ServiceState) (id : Nat) (cs : List Command),
      (lookupNode s.local_nodes id).isNone →
      pollCommands s (.Deregister id :: cs) = .error .InconsistentState) := by
  have hreg : ∀ (s : ServiceState) (node : NodeHandle),
      (lookupNode s.local_nodes node.local_id).isSome →
      handleCommand s (.Register node) = (.error .InconsistentState, s) := by
    intro s node h
    simp [handleCommand, h]
  have hdereg : ∀ (s : ServiceState) (id : Nat),
      (lookupNode s.local_nodes id).isNone →
      handleCommand s (.Deregister id) = (.error .InconsistentState, s) := by
    intro s id h
    simp only [Option.isNone_iff_eq_none] at h
    simp [handleCommand, h]
  refine ⟨hreg, hdereg, ?_, ?_⟩
  · intro s node cs h
    simp [pollCommands, hreg s node h]
  · intro s id cs h
    simp [pollCommands, hdereg s id h]

/-- A service state with exactly one registered node (local id 1),
used by the concrete examples. -/
def sampleServiceState : ServiceState :=
  ⟨.V4 ⟨0x7F000001, 9000⟩, [(1, ⟨1, zeroNodeMetrics⟩)], 1, 0, 0, zeroNodeMetrics⟩

/-- Witness for C7: re-registering local id 1 in a table that holds it, and
deregistering the absent id 2, both fail with `InconsistentState` and leave
the state unchanged; a poll processing either command terminates with that
error. -/
theorem handle_command_inconsistent_state_witness :
    handleCommand sampleServiceState (.Register ⟨1, zeroNodeMetrics⟩) =
      (.error .InconsistentState, sampleServiceState) ∧
    handleCommand sampleServiceState (.Deregister 2) =
      (.error .InconsistentState, sampleServiceState) ∧
    pollCommands sampleServiceState [.Deregister 2] = .error .InconsistentState :=
  ⟨handle_command_inconsistent_state.1 sampleServiceState ⟨1, zeroNodeMetrics⟩ (by decide),
   handle_command_inconsistent_state.2.1 sampleServiceState 2 (by decide),
   handle_command_inconsistent_state.2.2.2 sampleServiceState 2 [] (by decide)⟩

/-- `ServiceHandle::get_local_node` (src/service.rs:280-282): a plain
snapshot lookup. -/
def getLocalNode (s : ServiceState) (id : Nat) : Option NodeHandle :=
  lookupNode s.local_nodes id

/-- A HyParView `Disconnect` frame as cast by the self-healing path: the
peer it is cast to, the sender field it carries, and the `alive` flag. -/
structure DisconnectCast where
  target : NodeId
  sender : NodeId
  alive : Bool
  deriving DecidableEq

/-- `ServiceHandle::get_local_node_or_disconnect` (src/service.rs:284-304):
on a hit the handle is returned and nothing changes; on a miss the
`destination_unknown_messages` counter is incremented and a
`Disconnect { sender = NodeId(server_addr, id), alive = false }` frame is
cast back to `sender`. -/
def getLocalNodeOrDisconnect (s : ServiceState) (id : Nat) (sender : NodeId) :
    Option NodeHandle × ServiceState × Option DisconnectCast :=
  match lookupNode s.local_nodes id with
  | some node => (some node, s, none)
  | none =>
    (none,
     { s with destination_unknown_messages := s.destination_unknown_messages + 1 },
     some ⟨sender, ⟨s.server_addr, id⟩, false⟩)

/-- The `handle_cast` body shared by the five Plumtree cast handlers
(src/rpc/plumtree.rs: `GossipHandler`, `IhaveHandler`, `GraftHandler`,
`GraftOptimizeHandler`, `PruneHandler`): the destination is looked up with
`get_local_node_or_disconnect(id, &m.sender)` and the frame is delivered to
the mailbox on success. The middle component is the handle the frame was
delivered to, the last the disconnect frame cast back, if any. -/
def plumtreeHandleCast (s : ServiceState) (id : Nat) (frameSender : NodeId) :
    ServiceState × Option NodeHandle × Option DisconnectCast :=
  match getLocalNodeOrDisconnect s id frameSender with
  | (some node, s2, c) => (s2, some node, c)
  | (none, s2, c) => (s2, none, c)

/-- `JoinHandler::handle_cast` (src/rpc/hyparview.rs:46-59) — the same shape
is shared by all six HyParView cast handlers in that file: a plain
`get_local_node`; when the destination is missing the frame is dropped
after a diagnostic print (the disconnect reply and the metric are `TODO`
comments in the source, not code). -/
def joinHandleCast (s : ServiceState) (id : Nat) :
    ServiceState × Option NodeHandle × Option DisconnectCast :=
  match getLocalNode s id with
  | some node => (s, some node, none)
  | none => (s, none, none)

/-- C3 counterexample: an inbound HyParView Join addressed to the absent
local id 2 is dropped by `JoinHandler::handle_cast` with the service state
unchanged — the `destination_unknown_messages` counter stays 0 and no
Disconnect frame is cast — contradicting the claim that the
disconnect-on-unknown-destination behaviour covers every inbound frame
kind including Join. -/
theorem join_unknown_destination_drops_frame :
    joinHandleCast sampleServiceState 2 = (sampleServiceState, none, none) ∧
    (joinHandleCast sampleServiceState 2).1.destination_unknown_messages = 0 := by
  decide

/-- C3 (amended): `get_local_node_or_disconnect` increments the
`destination_unknown_messages` counter and casts a
`Disconnect { alive = false }` frame whose sender is the absent id back to
the frame's sender exactly when the destination is missing; the five
Plumtree inbound handlers use it, while the HyParView handlers (including
Join) drop a frame for a missing destination without a disconnect or a
counter increment. -/
theorem unknown_destination_disconnect :
    (∀ (s : ServiceState) (id : Nat) (sender : NodeId),
      lookupNode s.local_nodes id = none →
      getLocalNodeOrDisconnect s id sender =
        (none,
         { s with destination_unknown_messages := s.destination_unknown_messages + 1 },
         some ⟨sender, ⟨s.server_addr, id⟩, false⟩)) ∧
    (∀ (s : ServiceState) (id : Nat) (sender : NodeId) (node : NodeHandle),
      lookupNode s.local_nodes id = some node →
      getLocalNodeOrDisconnect s id sender = (some node, s, none)) ∧
    (∀ (s : ServiceState) (id : Nat) (sender : NodeId),
      lookupNode s.local_nodes id = none →
      (plumtreeHandleCast s id sender).1.destination_unknown_messages =
        s.destination_unknown_messages + 1 ∧
      (plumtreeHandleCast s id sender).2.2 = some ⟨sender, ⟨s.server_addr, id⟩, false⟩) ∧
    (∀ (s : ServiceState) (id : Nat),
      lookupNode s.local_nodes id = none →
      joinHandleCast s id = (s, none, none)) := by
  refine ⟨?_, ?_, ?_, ?_⟩
  · intro s id sender h
    simp [getLocalNodeOrDisconnect, h]
  · intro s id sender node h
    simp [getLocalNodeOrDisconnect, h]
  · intro s id sender h
    simp [plumtreeHandleCast, getLocalNodeOrDisconnect, h]
  · intro s id h
    simp [joinHandleCast, getLocalNode, h]

/-- Witness for the amended C3: for the concrete service state and the
absent local id 2, the missing-destination path increments the counter to 1
and casts `Disconnect { alive = false }` from `2@127.0.0.1:9000` back to the
sender, and the Join handler drops the same frame silently. -/
theorem unknown_destination_disconnect_witness :
    getLocalNodeOrDisconnect sampleServiceState 2 sampleNodeId =
      (none,
       ⟨.V4 ⟨0x7F000001, 9000⟩, [(1, ⟨1, zeroNodeMetrics⟩)], 1, 0, 1, zeroNodeMetrics⟩,
       some ⟨sampleNodeId, ⟨.V4 ⟨0x7F000001, 9000⟩, 2⟩, false⟩) ∧
    joinHandleCast sampleServiceState 2 = (sampleServiceState, none, none) :=
  ⟨unknown_destination_disconnect.1 sampleServiceState 2 sampleNodeId (by decide),
   unknown_destination_disconnect.2.2.2 sampleServiceState 2 (by decide)⟩

/-- Per-call options of a `fibers_rpc` cast client as far as the cast
functions in src/rpc/ touch them. `none` / `false` means the cast function
left the transport's built-in default in place. -/
structure CastOptions where
  priority : Option Nat
  max_queue_len : Option Nat
  force_wakeup : Bool
  deriving DecidableEq

/-- A fresh client's untouched options. -/
def defaultCastOptions : CastOptions := ⟨none, none, false⟩

/-- A cast as issued by one of the cast functions: the 32-bit procedure
identifier and the client options in effect. -/
structure OutboundCast where
  procedure_id : Nat
  options : CastOptions
  deriving DecidableEq

/-- `join_cast` (src/rpc/hyparview.rs:39-43): casts on `JoinCast`
(procedure 0x17CC0000); setting the options is a `TODO` comment in the
source, so the defaults remain. -/
def join_cast : OutboundCast := ⟨0x17CC0000, defaultCastOptions⟩

/-- `forward_join_cast` (src/rpc/hyparview.rs:72-80): procedure 0x17CC0001,
options untouched (`TODO`). -/
def forward_join_cast : OutboundCast := ⟨0x17CC0001, defaultCastOptions⟩

/-- `neighbor_cast` (src/rpc/hyparview.rs:110-114): procedure 0x17CC0002,
options untouched (`TODO`) — there is no high-priority branch. -/
def neighbor_cast : OutboundCast := ⟨0x17CC0002, defaultCastOptions⟩

/-- `shuffle_cast` (src/rpc/hyparview.rs:144-148): procedure 0x17CC0003,
options untouched (`TODO`). -/
def shuffle_cast : OutboundCast := ⟨0x17CC0003, defaultCastOptions⟩

/-- `shuffle_reply_cast` (src/rpc/hyparview.rs:178-186): procedure
0x17CC0004, options untouched (`TODO`). -/
def shuffle_reply_cast : OutboundCast := ⟨0x17CC0004, defaultCastOptions⟩

/-- `disconnect_cast` (src/rpc/hyparview.rs:216-220): procedure 0x17CC0005,
options untouched (`TODO`). -/
def disconnect_cast : OutboundCast := ⟨0x17CC0005, defaultCastOptions⟩

/-- `gossip_cast` (src/rpc/plumtree.rs:39-48): procedure 0x17CD0000; only
`max_queue_len` is set (to `MAX_QUEUE_LEN = 4096`). -/
def gossip_cast : OutboundCast := ⟨0x17CD0000, ⟨none, some 4096, false⟩⟩

/-- `ihave_cast` (src/rpc/plumtree.rs:73-83): procedure 0x17CD0001;
`priority` is set to 200 and `max_queue_len` to 4096. -/
def ihave_cast : OutboundCast := ⟨0x17CD0001, ⟨some 200, some 4096, false⟩⟩

/-- `graft_cast` (src/rpc/plumtree.rs:108-121): dispatches on the presence
of the message id — `GraftCast` (0x17CD0002) when present,
`GraftOptimizeCast` (0x17CD0003) when absent; options untouched. -/
def graft_cast (has_message_id : Bool) : OutboundCast :=
  if has_message_id then ⟨0x17CD0002, defaultCastOptions⟩
  else ⟨0x17CD0003, defaultCastOptions⟩

/-- `prune_cast` (src/rpc/plumtree.rs:171-179): procedure 0x17CD0004,
options untouched. -/
def prune_cast : OutboundCast := ⟨0x17CD0004, defaultCastOptions⟩

/-- The outbound frame classes dispatched by `ServiceHandle::send_message`
(src/service.rs:316-364), with the Neighbor class split by its
high-priority flag as the claim words it. -/
inductive CastKind
  | join
  | forwardJoin
  | neighborHigh
  | neighborLow
  | shuffle
  | shuffleReply
  | disconnect
  | gossip
  | ihave
  | graftFull
  | graftOptimize
  | prune
  deriving DecidableEq

/-- The cast performed for each frame class, following the dispatch of
`ServiceHandle::send_message` into the cast functions above. -/
def castOf : CastKind → OutboundCast
  | .join => join_cast
  | .forwardJoin => forward_join_cast
  | .neighborHigh => neighbor_cast
  | .neighborLow => neighbor_cast
  | .shuffle => shuffle_cast
  | .shuffleReply => shuffle_reply_cast
  | .disconnect => disconnect_cast
  | .gossip => gossip_cast
  | .ihave => ihave_cast
  | .graftFull => graft_cast true
  | .graftOptimize => graft_cast false
  | .prune => prune_cast

/-- The priority assignment the claim words: join / forward-join /
high-priority neighbor explicitly at 100, shuffle / shuffle-reply / ihave
explicitly at 200, everything else default. Stated from the specification,
for comparison with `castOf`, which is modelled from the source. -/
def claimedPriority : CastKind → Option Nat
  | .join => some 100
  | .forwardJoin => some 100
  | .neighborHigh => some 100
  | .shuffle => some 200
  | .shuffleReply => some 200
  | .ihave => some 200
  | _ => none

/-- C8 counterexample: the Join cast leaves the client priority at the
transport default instead of setting 100 (option setting is a `TODO` in the
source), and the Shuffle cast likewise does not set 200, so the claimed
priority map disagrees with the code on those frame classes. -/
theorem cast_priority_claim_false :
    (castOf .join).options.priority = none ∧ claimedPriority .join = some 100 ∧
    (castOf .join).options.priority ≠ claimedPriority .join ∧
    (castOf .shuffle).options.priority ≠ claimedPriority .shuffle := by
  decide

/-- C8 (amended): the only outbound cast that sets an explicit transport
client priority is IHave, at 200; every other cast — all six HyParView
casts and the Gossip, Graft, Graft-optimize and Prune casts — leaves the
default priority in place. (Gossip and IHave additionally bound their
client queue at 4096.) -/
theorem cast_priority_by_frame_class :
    ∀ (k : CastKind),
      (castOf k).options.priority = if k = .ihave then some 200 else none := by
  intro k
  cases k <;> rfl

/-- Witness for the amended C8: the IHave cast carries priority 200 and the
Join cast carries the default. -/
theorem cast_priority_by_frame_class_witness :
    (castOf .ihave).options.priority = (if CastKind.ihave = .ihave then some 200 else none) ∧
    (castOf .join).options.priority = (if CastKind.join = .ihave then some 200 else none) :=
  ⟨cast_priority_by_frame_class .ihave, cast_priority_by_frame_class .join⟩

/-- Membership test of a message id among retained messages. -/
def containsId {M : Type} : List (MessageId × M) → MessageId → Bool
  | [], _ => false
  | (k, _) :: t, mid => if k = mid then true else containsId t mid

/-- Removal of a message id from the retained messages. -/
def removeId {M : Type} : List (MessageId × M) → MessageId → List (MessageId × M)
  | [], _ => []
  | (k, p) :: t, mid => if k = mid then t else (k, p) :: removeId t mid

/-- Retention and delivery state of the tree engine.
Modelled from the spec: the `plumtree` crate is an external module (spec §2
lists the tree engine as external). `broadcast_message` retains the message
payload and queues a `Deliver` action — the sender also delivers its own
broadcast (spec §3 lifecycle, §4.3, §8 scenario 1); `forget_message` drops
the retained payload and reports whether the id was known (spec §4.3). -/
structure PlumtreeEngine (M : Type) where
  retained : List (MessageId × M)
  pending_deliver : List (MessageId × M)
  deriving DecidableEq

/-- Modelled from the spec: `plumtree::Node::broadcast_message` retains the
message and queues its `Deliver` action (spec §3, §4.3, §8 scenario 1). -/
def PlumtreeEngine.broadcastMessage {M : Type} (e : PlumtreeEngine M) (mid : MessageId)
    (payload : M) : PlumtreeEngine M :=
  ⟨(mid, payload) :: e.retained, e.pending_deliver ++ [(mid, payload)]⟩

/-- Modelled from the spec: `plumtree::Node::forget_message` drops the
retained payload for the id and returns whether it was known (spec §4.3
`forget_message`). -/
def PlumtreeEngine.forgetMessage {M : Type} (e : PlumtreeEngine M) (mid : MessageId) :
    Bool × PlumtreeEngine M :=
  if containsId e.retained mid then (true, ⟨removeId e.retained mid, e.pending_deliver⟩)
  else (false, e)

/-- The node-engine state the claims touch (src/node.rs `Node`): identity,
the 64-bit `message_seqno` broadcast counter (modelled as `Nat`: the Rust
increment is a checked `u64` `+= 1`, which aborts rather than wraps, so no
message with a wrapped sequence number can exist), the tree engine, and the
per-node metrics. -/
structure PcNode (M : Type) where
  id : NodeId
  message_seqno : Nat
  plumtree_node : PlumtreeEngine M
  metrics : NodeMetrics
  deriving DecidableEq

/-- `NodeBuilder::finish` (src/node.rs:115-149) as far as the claims see it:
the node starts with `message_seqno = 0` and fresh (zero) metrics. -/
def freshNode {M : Type} (id : NodeId) : PcNode M := ⟨id, 0, ⟨[], []⟩, zeroNodeMetrics⟩

/-- `Node::broadcast` (src/node.rs:201-212): allocate
`MessageId::new(self.id(), self.message_seqno)`, increment `message_seqno`,
submit the message to the tree engine, increment `broadcasted_messages`.
Returns the id of the submitted message together with the new state. -/
def PcNode.broadcast {M : Type} (n : PcNode M) (payload : M) : MessageId × PcNode M :=
  let mid : MessageId := ⟨n.id, n.message_seqno⟩
  (mid,
   { n with
       message_seqno := n.message_seqno + 1,
       plumtree_node := n.plumtree_node.broadcastMessage mid payload,
       metrics :=
         { n.metrics with broadcasted_messages := n.metrics.broadcasted_messages + 1 } })

/-- `Node::forget_message` (src/node.rs:217-223): on a known id increment
`forgot_messages`, otherwise increment `forget_unknown_message_errors`. -/
def PcNode.forgetMessage {M : Type} (n : PcNode M) (mid : MessageId) : PcNode M :=
  match n.plumtree_node.forgetMessage mid with
  | (true, e) =>
    { n with plumtree_node := e,
             metrics := { n.metrics with forgot_messages := n.metrics.forgot_messages + 1 } }
  | (false, e) =>
    { n with plumtree_node := e,
             metrics :=
               { n.metrics with forget_unknown_message_errors :=
                   n.metrics.forget_unknown_message_errors + 1 } }

/-- The `Deliver` branch of `Node::handle_plumtree_action`
(src/node.rs:323-331): yield the message upward and increment
`delivered_messages`. -/
def PcNode.pollDeliver {M : Type} (n : PcNode M) : Option (MessageId × M) × PcNode M :=
  match n.plumtree_node.pending_deliver with
  | [] => (none, n)
  | d :: rest =>
    (some d,
     { n with
         plumtree_node := ⟨n.plumtree_node.retained, rest⟩,
         metrics :=
           { n.metrics with delivered_messages := n.metrics.delivered_messages + 1 } })

/-- Rust checked `u64` subtraction: `none` models the arithmetic-overflow
panic of a debug build. -/
def checkedSubU64 (a b : Nat) : Option Nat := if b ≤ a then some (a - b) else none

/-- Rust wrapping `u64` subtraction (release-build semantics). -/
def wrappingSubU64 (a b : Nat) : Nat := (a % 2 ^ 64 + 2 ^ 64 - b % 2 ^ 64) % 2 ^ 64

/-- The metric step of `impl Drop for Node` (src/node.rs:424-433):
`let messages = delivered_messages() - forgot_messages();` (a `u64`
subtraction), then `forgot_messages.add_u64(messages)`. The checked model
returns `none` exactly when the subtraction underflows (the debug-build
panic). The deregistration command and the farewell disconnects of the
drop handler are not observed by the claims and are not modelled. -/
def PcNode.dropMetrics {M : Type} (n : PcNode M) : Option NodeMetrics :=
  match checkedSubU64 n.metrics.delivered_messages n.metrics.forgot_messages with
  | some messages =>
    some { n.metrics with forgot_messages := n.metrics.forgot_messages + messages }
  | none => none

/-- The value `add_u64` receives from the drop subtraction under release
(wrapping) semantics. -/
def PcNode.dropForgotAddend {M : Type} (n : PcNode M) : Nat :=
  wrappingSubU64 n.metrics.delivered_messages n.metrics.forgot_messages

/-- Repeated broadcasting: the list of message ids allocated, in order,
together with the final node state. -/
def broadcastAll {M : Type} (n : PcNode M) : List M → List MessageId × PcNode M
  | [] => ([], n)
  | p :: ps =>
    let r := n.broadcast p
    let r2 := broadcastAll r.2 ps
    (r.1 :: r2.1, r2.2)

theorem broadcastAll_length {M : Type} (ps : List M) : ∀ (n : PcNode M),
    (broadcastAll n ps).1.length = ps.length := by
  induction ps with
  | nil => intro n; simp [broadcastAll]
  | cons p ps ih => intro n; simp [broadcastAll, ih]

theorem broadcastAll_get {M : Type} (ps : List M) : ∀ (n : PcNode M) (i : Nat)
    (hi : i < (broadcastAll n ps).1.length),
    (broadcastAll n ps).1.get ⟨i, hi⟩ = ⟨n.id, n.message_seqno + i⟩ := by
  induction ps with
  | nil =>
    intro n i hi
    simp [broadcastAll] at hi
  | cons p ps ih =>
    intro n i hi
    cases i with
    | zero => simp [broadcastAll, PcNode.broadcast]
    | succ j =>
      have hj : j < (broadcastAll (n.broadcast p).2 ps).1.length := by
        have := hi
        simp only [broadcastAll, List.length_cons] at this
        omega
      have hrec := ih (n.broadcast p).2 j hj
      simp only [broadcastAll, List.get_cons_succ]
      rw [hrec]
      simp only [PcNode.broadcast]
      congr 1
      omega

/-- C2: every `broadcast` call allocates `MessageId(self id, message_seqno)`
and then increments `message_seqno`; consequently, along any run of
broadcasts from a freshly built node, the i-th broadcast gets sequence
number i, so earlier messages have strictly smaller sequence numbers than
later ones, and the first message broadcast after construction has
sequence number 0. -/
theorem broadcast_seqno_strictly_increasing :
    (∀ (M : Type) (n : PcNode M) (p : M),
      (n.broadcast p).1 = ⟨n.id, n.message_seqno⟩ ∧
      (n.broadcast p).2.message_seqno = n.message_seqno + 1) ∧
    (∀ (M : Type) (id0 : NodeId) (ps : List M) (i j : Nat)
      (hi : i < (broadcastAll (freshNode id0) ps).1.length)
      (hj : j < (broadcastAll (freshNode id0) ps).1.length),
      i < j →
      ((broadcastAll (freshNode id0) ps).1.get ⟨i, hi⟩).seqno <
        ((broadcastAll (freshNode id0) ps).1.get ⟨j, hj⟩).seqno) ∧
    (∀ (M : Type) (id0 : NodeId) (p : M) (ps : List M),
      (broadcastAll (freshNode id0) (p :: ps)).1.head? = some ⟨id0, 0⟩) := by
  refine ⟨fun M n p => ⟨rfl, rfl⟩, ?_, ?_⟩
  · intro M id0 ps i j hi hj hij
    rw [broadcastAll_get, broadcastAll_get]
    simpa [freshNode] using hij
  · intro M id0 p ps
    simp [broadcastAll, PcNode.broadcast, freshNode]

/-- Witness for C2: broadcasting the payloads 5 then 6 from a fresh node
gives sequence numbers 0 and 1, in strictly increasing order. -/
theorem broadcast_seqno_strictly_increasing_witness :
    ((broadcastAll (freshNode sampleNodeId : PcNode Nat) [5, 6]).1.get
        ⟨0, by decide⟩).seqno <
      ((broadcastAll (freshNode sampleNodeId : PcNode Nat) [5, 6]).1.get
        ⟨1, by decide⟩).seqno :=
  broadcast_seqno_strictly_increasing.2.1 Nat sampleNodeId [5, 6] 0 1
    (by decide) (by decide) (by decide)

/-- C6: when a node is dropped with `forgot_messages ≤ delivered_messages`
(normal shutdown), the drop handler adds the difference
`delivered_messages - forgot_messages` onto the `forgot_messages` counter,
and the resulting metrics satisfy
`forgot_messages_total ≥ delivered_messages_total`. -/
theorem drop_merges_delivered_into_forgot (M : Type) (n : PcNode M)
    (h : n.metrics.forgot_messages ≤ n.metrics.delivered_messages) :
    n.dropMetrics =
      some { n.metrics with
               forgot_messages :=
                 n.metrics.forgot_messages +
                   (n.metrics.delivered_messages - n.metrics.forgot_messages) } ∧
    ∀ m, n.dropMetrics = some m → m.delivered_messages ≤ m.forgot_messages := by
  have hd : n.dropMetrics =
      some { n.metrics with
               forgot_messages :=
                 n.metrics.forgot_messages +
                   (n.metrics.delivered_messages - n.metrics.forgot_messages) } := by
    simp [PcNode.dropMetrics, checkedSubU64, h]
  refine ⟨hd, fun m hm => ?_⟩
  rw [hd] at hm
  cases hm
  simp only
  omega

/-- The node that broadcast the payload 5 and had its Deliver action polled:
`delivered_messages = 1`, `forgot_messages = 0`. -/
def sampleDeliveredNode : PcNode Nat :=
  (((freshNode sampleNodeId : PcNode Nat).broadcast 5).2).pollDeliver.2

/-- Witness for C6: dropping the delivered-one-message node merges the
difference 1 into `forgot_messages`, which then equals and hence dominates
`delivered_messages`. -/
theorem drop_merges_delivered_into_forgot_witness :
    sampleDeliveredNode.dropMetrics =
      some { sampleDeliveredNode.metrics with
               forgot_messages :=
                 sampleDeliveredNode.metrics.forgot_messages +
                   (sampleDeliveredNode.metrics.delivered_messages -
                     sampleDeliveredNode.metrics.forgot_messages) } ∧
    ∀ m, sampleDeliveredNode.dropMetrics = some m →
      m.delivered_messages ≤ m.forgot_messages :=
  drop_merges_delivered_into_forgot Nat sampleDeliveredNode (by decide)

/-- The node that broadcast the payload 5 and then forgot the message
before its Deliver action was polled: `forgot_messages = 1`,
`delivered_messages = 0`, with the Deliver action still pending. -/
def sampleForgottenNode : PcNode Nat :=
  (((freshNode sampleNodeId : PcNode Nat).broadcast 5).2).forgetMessage
    ((freshNode sampleNodeId : PcNode Nat).broadcast 5).1

/-- C10: forgetting a broadcast message before its Deliver action is polled
leaves `forgot_messages = 1 > 0 = delivered_messages`; at drop the `u64`
subtraction `delivered_messages() - forgot_messages()` underflows — the
checked (debug) semantics has no result (panic), and the wrapping (release)
semantics hands `add_u64` the huge wrapped value `2^64 - 1` instead of
leaving the counter unchanged. -/
theorem drop_underflow_on_forgot_exceeding_delivered :
    sampleForgottenNode.metrics.forgot_messages = 1 ∧
    sampleForgottenNode.metrics.delivered_messages = 0 ∧
    sampleForgottenNode.plumtree_node.pending_deliver ≠ [] ∧
    checkedSubU64 sampleForgottenNode.metrics.delivered_messages
      sampleForgottenNode.metrics.forgot_messages = none ∧
    sampleForgottenNode.dropMetrics = none ∧
    sampleForgottenNode.dropForgotAddend = 2 ^ 64 - 1 := by
  refine ⟨by decide, by decide, by decide, by decide, by decide, ?_⟩
  decide

/-- `gen_interval` (src/node.rs:468-472). Durations are in nanoseconds;
`millis = base.as_secs() * 1000 + u64::from(base.subsec_millis())` equals
the whole-millisecond count `base / 1000000`; `r` is the
`rand::random::<u64>()` draw. The jitter is `r % (millis / 10)`
milliseconds added onto `base`; when `millis / 10` is zero the Rust `%`
operator panics with a division by zero, modelled as `none`. -/
def genInterval (r : Nat) (base : Nat) : Option Nat :=
  let millis := base / 1000000
  if millis / 10 = 0 then none
  else some (base + r % (millis / 10) * 1000000)

theorem genInterval_bounds (r base : Nat) (h : 10 ≤ base / 1000000) :
    ∃ d, genInterval r base = some d ∧ base ≤ d ∧ d < base + base / 10 := by
  have hdd : base / 1000000 / 10 = base / 10000000 := by
    rw [Nat.div_div_eq_div_mul]
  have hm0 : 0 < base / 10000000 := by omega
  refine ⟨base + r % (base / 1000000 / 10) * 1000000, ?_, ?_, ?_⟩
  · simp only [genInterval]
    rw [if_neg (by omega)]
  · omega
  · rw [hdd]
    have h1 : r % (base / 10000000) < base / 10000000 := Nat.mod_lt _ hm0
    have h2 : base / 10000000 * 10000000 ≤ base := Nat.div_mul_le_self base 10000000
    have h3 : base / 10000000 * 1000000 ≤ base / 10 := by
      have h4 : base / 10000000 * 10000000 / 10 ≤ base / 10 :=
        Nat.div_le_div_right h2
      have h5 : base / 10000000 * 10000000 / 10 = base / 10000000 * 1000000 := by
        rw [show (10000000 : Nat) = 1000000 * 10 from rfl, ← Nat.mul_assoc]
        exact Nat.mul_div_cancel _ (by norm_num)
      omega
    omega

/-- The periodic-maintenance state of `Node::handle_tick`
(src/node.rs:349-370): the tree-engine clock (`NodeTime`, nanoseconds) and
the three scheduled HyParView maintenance times. -/
structure TickState where
  now : Nat
  hyparview_shuffle_time : Nat
  hyparview_sync_active_view_time : Nat
  hyparview_fill_active_view_time : Nat
  deriving DecidableEq

/-- The interval parameters (src/node.rs `Parameters`), in nanoseconds. -/
structure TickParams where
  tick_interval : Nat
  hyparview_shuffle_interval : Nat
  hyparview_sync_active_view_interval : Nat
  hyparview_fill_active_view_interval : Nat
  deriving DecidableEq

/-- One scheduled-task step of `Node::handle_tick`: when the task is due
(`now >= time`), run it and reschedule at `now + gen_interval(base)` (a
`gen_interval` panic propagates as `none`); otherwise keep the old time. -/
def nextTime (now cur r base : Nat) : Option Nat :=
  if cur ≤ now then
    match genInterval r base with
    | some d => some (now + d)
    | none => none
  else some cur

/-- `Node::handle_tick` (src/node.rs:349-370) with the three fresh random
draws explicit: the clock first advances by the tick interval
(`clock_mut().tick(...)` — modelled from the spec: `plumtree::time::Clock`
is external; spec §4.3 "Every tick: advance the tree engine's logical
clock by the tick interval"), then each due maintenance task is run and
rescheduled. -/
def handleTick (ps : TickParams) (r1 r2 r3 : Nat) (s : TickState) : Option TickState :=
  let now := s.now + ps.tick_interval
  match nextTime now s.hyparview_shuffle_time r1 ps.hyparview_shuffle_interval with
  | none => none
  | some t1 =>
    match nextTime now s.hyparview_sync_active_view_time r2
        ps.hyparview_sync_active_view_interval with
    | none => none
    | some t2 =>
      match nextTime now s.hyparview_fill_active_view_time r3
          ps.hyparview_fill_active_view_interval with
      | none => none
      | some t3 => some ⟨now, t1, t2, t3⟩

theorem nextTime_of_genInterval (now cur r base d : Nat)
    (hg : genInterval r base = some d) :
    nextTime now cur r base = some (if cur ≤ now then now + d else cur) := by
  by_cases hc : cur ≤ now <;> simp [nextTime, hg, hc]

/-- C9 counterexample: for the 5-millisecond base interval (and the random
draw 0) `gen_interval` yields no duration at all — `millis / 10` is zero
and the modulo operation panics — so the claim's "for every base duration
gen_interval(base) returns a duration d" fails. -/
theorem gen_interval_small_base_panics :
    genInterval 0 5000000 = none := by decide

/-- C9 (amended): for every base interval of at least 10 whole milliseconds
and every random draw, `gen_interval(base)` returns a duration `d` with
`base ≤ d < base + base/10`; and whenever `handle_tick` fires a due
maintenance task (shuffle, sync-active-view or fill-active-view), the next
scheduled time is the advanced current time plus such a `gen_interval`
result, while a task that is not due keeps its scheduled time. -/
theorem maintenance_schedule_jitter :
    (∀ (r base : Nat), 10 ≤ base / 1000000 →
      ∃ d, genInterval r base = some d ∧ base ≤ d ∧ d < base + base / 10) ∧
    (∀ (ps : TickParams) (r1 r2 r3 : Nat) (s : TickState),
      10 ≤ ps.hyparview_shuffle_interval / 1000000 →
      10 ≤ ps.hyparview_sync_active_view_interval / 1000000 →
      10 ≤ ps.hyparview_fill_active_view_interval / 1000000 →
      ∃ d1 d2 d3 s2,
        genInterval r1 ps.hyparview_shuffle_interval = some d1 ∧
        genInterval r2 ps.hyparview_sync_active_view_interval = some d2 ∧
        genInterval r3 ps.hyparview_fill_active_view_interval = some d3 ∧
        handleTick ps r1 r2 r3 s = some s2 ∧
        s2.now = s.now + ps.tick_interval ∧
        s2.hyparview_shuffle_time =
          (if s.hyparview_shuffle_time ≤ s2.now then s2.now + d1
           else s.hyparview_shuffle_time) ∧
        s2.hyparview_sync_active_view_time =
          (if s.hyparview_sync_active_view_time ≤ s2.now then s2.now + d2
           else s.hyparview_sync_active_view_time) ∧
        s2.hyparview_fill_active_view_time =
          (if s.hyparview_fill_active_view_time ≤ s2.now then s2.now + d3
           else s.hyparview_fill_active_view_time)) := by
  refine ⟨genInterval_bounds, ?_⟩
  intro ps r1 r2 r3 s h1 h2 h3
  obtain ⟨d1, hg1, -, -⟩ := genInterval_bounds r1 ps.hyparview_shuffle_interval h1
  obtain ⟨d2, hg2, -, -⟩ := genInterval_bounds r2 ps.hyparview_sync_active_view_interval h2
  obtain ⟨d3, hg3, -, -⟩ := genInterval_bounds r3 ps.hyparview_fill_active_view_interval h3
  refine ⟨d1, d2, d3,
    ⟨s.now + ps.tick_interval,
     if s.hyparview_shuffle_time ≤ s.now + ps.tick_interval then
       s.now + ps.tick_interval + d1
     else s.hyparview_shuffle_time,
     if s.hyparview_sync_active_view_time ≤ s.now + ps.tick_interval then
       s.now + ps.tick_interval + d2
     else s.hyparview_sync_active_view_time,
     if s.hyparview_fill_active_view_time ≤ s.now + ps.tick_interval then
       s.now + ps.tick_interval + d3
     else s.hyparview_fill_active_view_time⟩,
    hg1, hg2, hg3, ?_, rfl, rfl, rfl, rfl⟩
  simp only [handleTick,
    nextTime_of_genInterval _ _ _ _ _ hg1,
    nextTime_of_genInterval _ _ _ _ _ hg2,
    nextTime_of_genInterval _ _ _ _ _ hg3]

/-- Witness for the amended C9: the default 300-second shuffle interval,
60-second sync interval and 30-second fill interval with concrete random
draws; the bounds and the rescheduling equations hold at a concrete due
tick state. -/
theorem maintenance_schedule_jitter_witness :
    (∃ d, genInterval 123456789 300000000000 = some d ∧
      300000000000 ≤ d ∧ d < 300000000000 + 300000000000 / 10) ∧
    (∃ d1 d2 d3 s2,
      genInterval 7 300000000000 = some d1 ∧
      genInterval 8 60000000000 = some d2 ∧
      genInterval 9 30000000000 = some d3 ∧
      handleTick ⟨200000000, 300000000000, 60000000000, 30000000000⟩ 7 8 9
        ⟨0, 0, 0, 0⟩ = some s2 ∧
      s2.now = (0 : Nat) + 200000000 ∧
      s2.hyparview_shuffle_time =
        (if (0 : Nat) ≤ s2.now then s2.now + d1 else 0) ∧
      s2.hyparview_sync_active_view_time =
        (if (0 : Nat) ≤ s2.now then s2.now + d2 else 0) ∧
      s2.hyparview_fill_active_view_time =
        (if (0 : Nat) ≤ s2.now then s2.now + d3 else 0)) :=
  ⟨maintenance_schedule_jitter.1 123456789 300000000000 (by norm_num),
   maintenance_schedule_jitter.2 ⟨200000000, 300000000000, 60000000000, 30000000000⟩
     7 8 9 ⟨0, 0, 0, 0⟩ (by norm_num) (by norm_num) (by norm_num)⟩
